import Mathlib

/-!
Shallow embedding of the wildfire evacuation-zone checker
(src/streamlit_app.py) and proofs about its core logic.

The embedding carries:
* the data model of the GeoJSON feed (zone records = geometry + properties);
* shapely-style polygon construction and planar point-in-polygon testing
  (geographic coordinates are exact rationals; a geometry whose
  construction fails with ValueError/AttributeError is modelled by
  `shape` returning `none`);
* the haversine great-circle distance over the reals;
* the classifier `find_evacuation_zones` (containment set plus the two
  nearest-zone trackers with strict-less-than replacement);
* the per-address result-row construction and the batch loop behind the
  Check Zones button, with the external geocoder as an
  `String → Option Location` capability (None models "no result" and
  the caught provider API error, which both return None in the source).
-/

namespace Wildfires

/-- Feed record attributes (the `properties` object of one GeoJSON
feature); every attribute is optional because the source reads them with
`dict.get`, which yields None for a missing key. `last_updated` is epoch
milliseconds. -/
structure Props where
  zone_status : Option String
  zone_id : Option String
  zone_status_reason : Option String
  north_of : Option String
  east_of : Option String
  south_of : Option String
  west_of : Option String
  acreage : Option ℚ
  est_population : Option ℚ
  last_updated : Option ℤ
deriving DecidableEq

/-- Feed geometry. `polygon rings` is a GeoJSON Polygon: the first ring is
the exterior, the rest are holes; each vertex is (x = longitude,
y = latitude). `invalid` stands for any geometry whose shapely
construction or evaluation raises (degenerate rings are covered
separately by `shape` itself; non-finite coordinates — which make the
later haversine call raise ValueError — and other malformed shapes are
collapsed into `invalid`, since their only observable effect in the
source is that the `except (ValueError, AttributeError)` handler skips
the record). -/
inductive Geometry where
  | polygon (rings : List (List (ℚ × ℚ)))
  | invalid
deriving DecidableEq

/-- One feed feature: geometry plus properties. -/
structure Feature where
  geometry : Geometry
  properties : Props
deriving DecidableEq

/-- A constructed shapely polygon: exterior ring plus hole rings. -/
structure Polygon where
  exterior : List (ℚ × ℚ)
  holes : List (List (ℚ × ℚ))
deriving DecidableEq

/-- Models `shapely.geometry.shape(feature["geometry"])` under the
source's `except (ValueError, AttributeError)` handler: a ring with
fewer than 3 vertices makes the constructor raise ValueError, which the
loop turns into a skip, so such geometry maps to `none`. (A polygon with
no rings at all is also mapped to `none`: shapely builds an empty
polygon for it, which contains nothing and whose empty exterior yields
no distance candidates, so skipping it is observationally identical.) -/
def shape : Geometry → Option Polygon
  | .polygon [] => none
  | .polygon (ext :: holes) =>
      if (ext :: holes).all (fun r => 3 ≤ r.length) then some ⟨ext, holes⟩ else none
  | .invalid => none

/-- One step of the even-odd ray-crossing test: does the horizontal ray
from (x, y) cross the edge p–q? (Standard PNPOLY edge test.) -/
def edgeCrosses (x y : ℚ) (p q : ℚ × ℚ) : Bool :=
  ((decide (y < p.2)) != (decide (y < q.2))) &&
    decide (x < (q.1 - p.1) * (y - p.2) / (q.2 - p.2) + p.1)

/-- Even-odd crossing count over one ring (edges join consecutive
vertices, wrapping around; feed rings are closed so the wrap edge is
degenerate and crosses nothing). -/
def oddCrossings (x y : ℚ) (ring : List (ℚ × ℚ)) : Bool :=
  (ring.zip (ring.rotate 1)).foldl
    (fun c e => if edgeCrosses x y e.1 e.2 then !c else c) false

/-- Models `polygon.contains(Point(lon, lat))`: inside the exterior ring
and inside no hole (planar test on raw geographic coordinates, exactly
as the source applies shapely to unprojected lon/lat). -/
def polyContains (poly : Polygon) (x y : ℚ) : Bool :=
  oddCrossings x y poly.exterior && poly.holes.all (fun h => !(oddCrossings x y h))

/-- The Bool a feed feature contributes to the containment set: its
geometry constructs and the polygon contains the query point. -/
def containsTest (lat lon : ℚ) (f : Feature) : Bool :=
  match shape f.geometry with
  | some poly => polyContains poly lon lat
  | none => false

/-- Python's math.radians. -/
noncomputable def radians (x : ℝ) : ℝ := x * Real.pi / 180

/-- Python's math.atan2 over the reals (signed zeros do not exist in ℝ,
so atan2 0 0 = 0 covers the origin). -/
noncomputable def atan2 (y x : ℝ) : ℝ :=
  if 0 < x then Real.arctan (y / x)
  else if x < 0 ∧ 0 ≤ y then Real.arctan (y / x) + Real.pi
  else if x < 0 ∧ y < 0 then Real.arctan (y / x) - Real.pi
  else if 0 < y then Real.pi / 2
  else if y < 0 then -(Real.pi / 2)
  else 0

/-- The source's `haversine(lat1, lon1, lat2, lon2)`: great-circle
distance in miles with Earth radius 3958.8. -/
noncomputable def haversine (lat1 lon1 lat2 lon2 : ℝ) : ℝ :=
  let R : ℝ := 3958.8
  let rlat1 := radians lat1
  let rlon1 := radians lon1
  let rlat2 := radians lat2
  let rlon2 := radians lon2
  let dlat := rlat2 - rlat1
  let dlon := rlon2 - rlon1
  let a := Real.sin (dlat / 2) ^ 2 +
    Real.cos rlat1 * Real.cos rlat2 * Real.sin (dlon / 2) ^ 2
  let c := 2 * atan2 (Real.sqrt a) (Real.sqrt (1 - a))
  R * c

/-- The inner loop over `polygon.exterior.coords`: the minimum haversine
distance from (lat, lon) to a boundary vertex, starting from
float('inf') (modelled as ⊤ : EReal). Each boundary vertex is
(x = longitude, y = latitude), so the source passes
`boundary_point[1], boundary_point[0]`. -/
noncomputable def minBoundaryDistance (lat lon : ℚ) (poly : Polygon) : EReal :=
  poly.exterior.foldl
    (fun m bp => min m ((haversine (lat : ℝ) (lon : ℝ) (bp.2 : ℝ) (bp.1 : ℝ) : ℝ) : EReal)) ⊤

/-- The classifier's loop state: the five locals of
`find_evacuation_zones` (matching_zones, closest_distance, closest_zone,
closest_warning_distance, closest_warning_zone). -/
structure ZoneSearchState where
  matching_zones : List Props
  closest_distance : EReal
  closest_zone : Option Props
  closest_warning_distance : EReal
  closest_warning_zone : Option Props

/-- The initial loop state: empty matching set, both distances
float('inf'), both zones None. -/
noncomputable def initState : ZoneSearchState := ⟨[], ⊤, none, ⊤, none⟩

/-- One iteration of the `for feature in geojson_data["features"]` loop.
A geometry whose construction/evaluation raises is skipped (`shape` =
none). Otherwise: containment appends to matching_zones; a
non-containing feature updates the overall nearest tracker on a strictly
smaller minimum boundary distance, and then the warning-restricted
tracker when additionally zone_status (read with default "") is exactly
"Evacuation Warning". -/
noncomputable def processFeature (lat lon : ℚ) (st : ZoneSearchState) (f : Feature) :
    ZoneSearchState :=
  match shape f.geometry with
  | none => st
  | some polygon =>
    if polyContains polygon lon lat then
      { st with matching_zones := st.matching_zones ++ [f.properties] }
    else
      let zone_status := f.properties.zone_status.getD ""
      let min_distance := minBoundaryDistance lat lon polygon
      let st1 :=
        if min_distance < st.closest_distance then
          { st with closest_distance := min_distance, closest_zone := some f.properties }
        else st
      if zone_status = "Evacuation Warning" ∧ min_distance < st1.closest_warning_distance then
        { st1 with closest_warning_distance := min_distance,
                   closest_warning_zone := some f.properties }
      else st1

/-- The source's `find_evacuation_zones(lat, lon, geojson_data)`: fold
the per-feature step over the feed in feed order and return the final
state (the source returns the five components as a tuple). -/
noncomputable def find_evacuation_zones (lat lon : ℚ) (features : List Feature) :
    ZoneSearchState :=
  features.foldl (processFeature lat lon) initState

/-- A geocoded coordinate (the namedtuple `Location` of the source). -/
structure Location where
  latitude : ℚ
  longitude : ℚ
deriving DecidableEq

/-- Two-digit zero padding for the timestamp fields. -/
def pad2 (n : ℤ) : String :=
  if 0 ≤ n ∧ n < 10 then "0" ++ toString n else toString n

/-- Civil date from days since the Unix epoch (proleptic Gregorian).
Int.fdiv is floor division, matching the date math for dates before
1970 as well. -/
def civilFromDays (z0 : ℤ) : ℤ × ℤ × ℤ :=
  let z := z0 + 719468
  let era : ℤ := z.fdiv 146097
  let doe : ℤ := z - era * 146097
  let yoe : ℤ := (doe - doe.fdiv 1460 + doe.fdiv 36524 - doe.fdiv 146096).fdiv 365
  let y : ℤ := yoe + era * 400
  let doy : ℤ := doe - (365 * yoe + yoe.fdiv 4 - yoe.fdiv 100)
  let mp : ℤ := (5 * doy + 2).fdiv 153
  let d : ℤ := doy - (153 * mp + 2).fdiv 5 + 1
  let m : ℤ := mp + (if mp < 10 then 3 else -9)
  (y + (if m ≤ 2 then 1 else 0), m, d)

/-- Models `datetime.fromtimestamp(secs).strftime("%Y-%m-%d %H:%M:%S")`.
The source formats in the host's local timezone (the column is labelled
EST); the offset is environmental, so the embedding formats the epoch
seconds as UTC. -/
def formatTimestamp (secs : ℤ) : String :=
  let days := secs.fdiv 86400
  let secsOfDay := secs - days * 86400
  match civilFromDays days with
  | (y, m, d) =>
    toString y ++ "-" ++ pad2 m ++ "-" ++ pad2 d ++ " " ++
      pad2 (secsOfDay.fdiv 3600) ++ ":" ++ pad2 (secsOfDay.fdiv 60 % 60) ++ ":" ++
      pad2 (secsOfDay % 60)

/-- Models Python's f-string formatting `f"{v:.2f}"` of a finite float:
sign, integer part, dot, two fractional digits. (Python rounds
half-to-even; Mathlib's round is half-up — the difference is confined to
exact half-hundredths and is irrelevant to the claims, which never
inspect the digits of a finite distance.) -/
noncomputable def formatReal2 (v : ℝ) : String :=
  let n : ℤ := round (v * 100)
  let sign := if n < 0 then "-" else ""
  let m := n.natAbs
  sign ++ toString (m / 100) ++ "." ++
    (if m % 100 < 10 then "0" ++ toString (m % 100) else toString (m % 100))

/-- Models `f"{closest_distance:.2f}"` on the tracked distance, which is
a Python float that can be inf (no finite candidate was seen): Python
renders float('inf') as "inf". -/
noncomputable def formatF2 (x : EReal) : String :=
  if x = ⊤ then "inf" else if x = ⊥ then "-inf" else formatReal2 x.toReal

/-- One output record of the results table. Field-to-column mapping:
evacuationZone = "Evacuation Zone", evacuationWarning = "Evacuation
Warning", distance = "Distance to Closest Evacuation Zone (miles)"
(None when the address is inside a zone), the rest are the zone
attribute columns (None models Python None). -/
structure Row where
  address : String
  evacuationZone : String
  evacuationWarning : String
  distance : Option String
  zoneId : Option String
  zoneStatus : Option String
  zoneStatusReason : Option String
  northOf : Option String
  eastOf : Option String
  southOf : Option String
  westOf : Option String
  acreage : Option ℚ
  estPopulation : Option ℚ
  lastUpdated : Option String
deriving DecidableEq

/-- The result row appended when `locate_property` returns None
(geocoding failed): all status fields "Not Available"/"N/A", all zone
attributes None. -/
def notAvailableRow (address : String) : Row :=
  ⟨address, "Not Available", "Not Available", some "N/A",
    none, none, none, none, none, none, none, none, none, none⟩

/-- The result row appended when `matching_zones` is non-empty, built
from the FIRST matching record `zone = matching_zones[0]`. The
`last_updated` column follows Python truthiness: `if
zone.get("last_updated")` is False for a missing key and for 0, and the
epoch milliseconds are divided by 1000 before formatting. -/
def containedRow (address : String) (zone : Props) : Row :=
  { address := address
    evacuationZone := if zone.zone_status = some "Evacuation Order" then "Yes" else "No"
    evacuationWarning := if zone.zone_status = some "Evacuation Warning" then "Yes" else "No"
    distance := none
    zoneId := zone.zone_id
    zoneStatus := zone.zone_status
    zoneStatusReason := zone.zone_status_reason
    northOf := zone.north_of
    eastOf := zone.east_of
    southOf := zone.south_of
    westOf := zone.west_of
    acreage := zone.acreage
    estPopulation := zone.est_population
    lastUpdated :=
      match zone.last_updated with
      | some t => if t = 0 then none else some (formatTimestamp (t.fdiv 1000))
      | none => none }

/-- The result row appended when `matching_zones` is empty: statuses
"No", closest_distance formatted to two decimals, all zone attributes
None. -/
noncomputable def distanceRow (address : String) (closest_distance : EReal) : Row :=
  { address := address
    evacuationZone := "No"
    evacuationWarning := "No"
    distance := some (formatF2 closest_distance)
    zoneId := none
    zoneStatus := none
    zoneStatusReason := none
    northOf := none
    eastOf := none
    southOf := none
    westOf := none
    acreage := none
    estPopulation := none
    lastUpdated := none }

/-- Maps the classifier's final state to the result row (lines 152–187
of the source: the `if matching_zones:` / `else` arms after a successful
geocode). -/
noncomputable def buildRow (address : String) (st : ZoneSearchState) : Row :=
  match st.matching_zones with
  | zone :: _ => containedRow address zone
  | [] => distanceRow address st.closest_distance

/-- The per-address body of the batch loop. The external geocoder is a
capability `String → Option Location`; `locate_property` returns None
both when the provider yields no result and on the caught provider API
error (and when the API key is empty), so Option faithfully covers the
source's failure modes. -/
noncomputable def processAddress (geocoder : String → Option Location)
    (features : List Feature) (address : String) : Row :=
  match geocoder address with
  | none => notAvailableRow address
  | some location =>
      buildRow address (find_evacuation_zones location.latitude location.longitude features)

/-- The batch loop `for address in addresses[:10]` over the validated
address list, producing one row per processed address in input order. -/
noncomputable def checkZonesResults (geocoder : String → Option Location)
    (features : List Feature) (addresses : List String) : List Row :=
  (addresses.take 10).map (processAddress geocoder features)

/-- The Check Zones button handler (lines 115–187): empty input or more
than 10 addresses show a warning and do not run the batch (modelled as
`none`); otherwise the batch runs and yields the result rows. The
`addresses` argument is the split of the text area, and the feed
(fetched inside the `else`) is the `features` argument. -/
noncomputable def checkZones (geocoder : String → Option Location)
    (features : List Feature) (addresses : List String) : Option (List Row) :=
  if addresses = [] ∨ addresses = [""] then none
  else if 10 < addresses.length then none
  else some (checkZonesResults geocoder features addresses)

/-! ### Result-row state predicates (from the §3 invariant)

The three mutually exclusive states a result row can be in: contained
(zone attributes shown, distance column empty), distance-only (outside
all zones), and geocoding-failed. -/

/-- All zone-attribute columns of a row are null. -/
def attrsNull (r : Row) : Prop :=
  r.zoneId = none ∧ r.zoneStatus = none ∧ r.zoneStatusReason = none ∧
  r.northOf = none ∧ r.eastOf = none ∧ r.southOf = none ∧ r.westOf = none ∧
  r.acreage = none ∧ r.estPopulation = none ∧ r.lastUpdated = none

/-- The address was contained in at least one zone: the distance column
is empty and the statuses are genuine Yes/No answers. -/
def containedState (r : Row) : Prop :=
  r.distance = none ∧ (r.evacuationZone = "Yes" ∨ r.evacuationZone = "No")

/-- The address was outside all zones: the distance column is populated,
statuses are "No", and all zone attributes are null. -/
def distanceOnlyState (r : Row) : Prop :=
  (∃ s, r.distance = some s) ∧ r.evacuationZone = "No" ∧ r.evacuationWarning = "No" ∧
    attrsNull r

/-- Geocoding failed: status fields "Not Available", distance "N/A",
zone attributes null. -/
def geocodeFailedState (r : Row) : Prop :=
  r.evacuationZone = "Not Available" ∧ r.evacuationWarning = "Not Available" ∧
  r.distance = some "N/A" ∧ attrsNull r

/-! ### Concrete fixtures used to instantiate the theorems -/

/-- A geocoder capability that finds no address (the provider returning
no result). -/
def geoNone : String → Option Location := fun _ => none

/-- A fixed successful geocoding result (downtown Los Angeles). -/
def laLocation : Location := ⟨34.05, -118.24⟩

/-- A geocoder capability that resolves every address to `laLocation`. -/
def geoLA : String → Option Location := fun _ => some laLocation

/-- Closed unit-square ring around the origin (vertices are (lon, lat)). -/
def unitRing : List (ℚ × ℚ) := [(0, 0), (1, 0), (1, 1), (0, 1), (0, 0)]

/-- The unit square as a constructed polygon. -/
def unitPoly : Polygon := ⟨unitRing, []⟩

/-- Fully populated properties of a zone under an evacuation order. -/
def orderProps : Props :=
  ⟨some "Evacuation Order", some "Z-ORDER", some "Wildfire", some "Foo St",
    some "Bar Ave", some "Baz Rd", some "Qux Blvd", some 120, some 3500,
    some 1736890000000⟩

/-- A valid feed feature whose polygon is the unit square. -/
def goodFeature : Feature := ⟨Geometry.polygon [unitRing], orderProps⟩

/-- A degenerate 2-vertex ring (shapely refuses to build it). -/
def badRing : List (ℚ × ℚ) := [(0, 0), (1, 1)]

/-- Properties carried by the malformed feature. -/
def badProps : Props :=
  ⟨some "Evacuation Order", some "Z-BAD", none, none, none, none, none, none, none, none⟩

/-- A feed feature with malformed (degenerate-ring) geometry. -/
def badFeature : Feature := ⟨Geometry.polygon [badRing], badProps⟩

/-- Closed square ring far from the origin. -/
def farRing : List (ℚ × ℚ) := [(10, 10), (11, 10), (11, 11), (10, 11), (10, 10)]

/-- The far square as a constructed polygon. -/
def farPoly : Polygon := ⟨farRing, []⟩

/-- First of two equidistant warning zones. -/
def warnProps1 : Props :=
  ⟨some "Evacuation Warning", some "W1", none, none, none, none, none, none, none, none⟩

/-- Second of two equidistant warning zones. -/
def warnProps2 : Props :=
  ⟨some "Evacuation Warning", some "W2", none, none, none, none, none, none, none, none⟩

/-- Feature of the first equidistant warning zone. -/
def warnF1 : Feature := ⟨Geometry.polygon [farRing], warnProps1⟩

/-- Feature of the second equidistant warning zone (same geometry,
later feed position). -/
def warnF2 : Feature := ⟨Geometry.polygon [farRing], warnProps2⟩

/-- Eleven addresses (one over the batch cap). -/
def addrs11 : List String :=
  ["a1", "a2", "a3", "a4", "a5", "a6", "a7", "a8", "a9", "a10", "a11"]

/-- Twelve addresses (two over the batch cap). -/
def addrs12 : List String :=
  ["b1", "b2", "b3", "b4", "b5", "b6", "b7", "b8", "b9", "b10", "b11", "b12"]

/-! ### Helper lemmas about the classifier loop -/

lemma processFeature_shape_none (lat lon : ℚ) (st : ZoneSearchState) (f : Feature)
    (h : shape f.geometry = none) : processFeature lat lon st f = st := by
  unfold processFeature
  rw [h]

lemma processFeature_contains (lat lon : ℚ) (st : ZoneSearchState) (f : Feature)
    (poly : Polygon) (hs : shape f.geometry = some poly)
    (hc : polyContains poly lon lat = true) :
    processFeature lat lon st f =
      { st with matching_zones := st.matching_zones ++ [f.properties] } := by
  unfold processFeature
  rw [hs]
  simp only [hc, if_true]

lemma processFeature_matching_not_contains (lat lon : ℚ) (st : ZoneSearchState) (f : Feature)
    (poly : Polygon) (hs : shape f.geometry = some poly)
    (hc : polyContains poly lon lat = false) :
    (processFeature lat lon st f).matching_zones = st.matching_zones := by
  unfold processFeature
  rw [hs]
  simp only [hc, Bool.false_eq_true, if_false]
  split_ifs <;> rfl

lemma foldl_matching (lat lon : ℚ) (features : List Feature) :
    ∀ st : ZoneSearchState,
      (features.foldl (processFeature lat lon) st).matching_zones =
        st.matching_zones ++ (features.filter (containsTest lat lon)).map Feature.properties := by
  induction features with
  | nil => intro st; simp
  | cons f rest ih =>
    intro st
    rw [List.foldl_cons, ih]
    cases hs : shape f.geometry with
    | none =>
      rw [processFeature_shape_none lat lon st f hs]
      simp [List.filter_cons, containsTest, hs]
    | some poly =>
      cases hc : polyContains poly lon lat with
      | false =>
        rw [processFeature_matching_not_contains lat lon st f poly hs hc]
        simp [List.filter_cons, containsTest, hs, hc]
      | true =>
        rw [processFeature_contains lat lon st f poly hs hc]
        simp [List.filter_cons, containsTest, hs, hc]

lemma find_matching_eq_filter (lat lon : ℚ) (features : List Feature) :
    (find_evacuation_zones lat lon features).matching_zones =
      (features.filter (containsTest lat lon)).map Feature.properties := by
  have h := foldl_matching lat lon features initState
  simpa [find_evacuation_zones, initState] using h

lemma find_skip_all (lat lon : ℚ) (features : List Feature)
    (h : ∀ f ∈ features, shape f.geometry = none) :
    find_evacuation_zones lat lon features = initState := by
  unfold find_evacuation_zones
  induction features with
  | nil => rfl
  | cons f rest ih =>
    rw [List.foldl_cons, processFeature_shape_none lat lon initState f (h f (by simp))]
    exact ih (fun g hg => h g (by simp [hg]))

lemma shape_exterior_ne_nil {g : Geometry} {poly : Polygon} (h : shape g = some poly) :
    poly.exterior ≠ [] := by
  cases g with
  | invalid => simp [shape] at h
  | polygon rings =>
    cases rings with
    | nil => simp [shape] at h
    | cons ext holes =>
      simp only [shape] at h
      split_ifs at h with hall
      · injection h with h2
        subst h2
        simp only [List.all_cons, Bool.and_eq_true, decide_eq_true_eq] at hall
        intro hnil
        have hnil2 : ext = [] := hnil
        rw [hnil2] at hall
        simp at hall

lemma foldl_min_le {β : Type} (f : β → EReal) (l : List β) :
    ∀ a : EReal, l.foldl (fun m bp => min m (f bp)) a ≤ a := by
  induction l with
  | nil => intro a; simp
  | cons p rest ih =>
    intro a
    rw [List.foldl_cons]
    exact le_trans (ih (min a (f p))) (min_le_left _ _)

lemma minBoundaryDistance_lt_top (lat lon : ℚ) (poly : Polygon)
    (h : poly.exterior ≠ []) : minBoundaryDistance lat lon poly < ⊤ := by
  obtain ⟨p, rest, hpr⟩ := List.exists_cons_of_ne_nil h
  unfold minBoundaryDistance
  rw [hpr, List.foldl_cons]
  refine lt_of_le_of_lt (le_trans (foldl_min_le _ _ _) (min_le_right _ _)) ?_
  exact EReal.coe_lt_top _

/-! ### Per-branch laws of the nearest-zone trackers -/

lemma step_closest_unchanged (lat lon : ℚ) (st : ZoneSearchState) (f : Feature)
    (poly : Polygon) (hs : shape f.geometry = some poly)
    (hc : polyContains poly lon lat = false)
    (hlt : ¬ minBoundaryDistance lat lon poly < st.closest_distance) :
    (processFeature lat lon st f).closest_zone = st.closest_zone ∧
    (processFeature lat lon st f).closest_distance = st.closest_distance := by
  unfold processFeature
  rw [hs]
  simp only [hc, Bool.false_eq_true, if_false]
  rw [if_neg hlt]
  split_ifs <;> exact ⟨rfl, rfl⟩

lemma step_closest_lt (lat lon : ℚ) (st : ZoneSearchState) (f : Feature)
    (poly : Polygon) (hs : shape f.geometry = some poly)
    (hc : polyContains poly lon lat = false)
    (hlt : minBoundaryDistance lat lon poly < st.closest_distance) :
    (processFeature lat lon st f).closest_zone = some f.properties ∧
    (processFeature lat lon st f).closest_distance = minBoundaryDistance lat lon poly := by
  unfold processFeature
  rw [hs]
  simp only [hc, Bool.false_eq_true, if_false]
  rw [if_pos hlt]
  split_ifs <;> exact ⟨rfl, rfl⟩

lemma step_warning_unchanged_of_status (lat lon : ℚ) (st : ZoneSearchState) (f : Feature)
    (poly : Polygon) (hs : shape f.geometry = some poly)
    (hc : polyContains poly lon lat = false)
    (hw : f.properties.zone_status.getD "" ≠ "Evacuation Warning") :
    (processFeature lat lon st f).closest_warning_zone = st.closest_warning_zone ∧
    (processFeature lat lon st f).closest_warning_distance = st.closest_warning_distance := by
  unfold processFeature
  rw [hs]
  simp only [hc, Bool.false_eq_true, if_false]
  split_ifs with h1 h2 h3 <;> first | exact absurd h2.1 hw | exact absurd h3.1 hw | exact ⟨rfl, rfl⟩

lemma step_warning_unchanged_of_not_lt (lat lon : ℚ) (st : ZoneSearchState) (f : Feature)
    (poly : Polygon) (hs : shape f.geometry = some poly)
    (hc : polyContains poly lon lat = false)
    (hnlt : ¬ minBoundaryDistance lat lon poly < st.closest_warning_distance) :
    (processFeature lat lon st f).closest_warning_zone = st.closest_warning_zone ∧
    (processFeature lat lon st f).closest_warning_distance = st.closest_warning_distance := by
  unfold processFeature
  rw [hs]
  simp only [hc, Bool.false_eq_true, if_false]
  split_ifs with h1 h2 h3 <;>
    first | exact absurd h2.2 hnlt | exact absurd h3.2 hnlt | exact ⟨rfl, rfl⟩

lemma step_warning_lt (lat lon : ℚ) (st : ZoneSearchState) (f : Feature)
    (poly : Polygon) (hs : shape f.geometry = some poly)
    (hc : polyContains poly lon lat = false)
    (hw : f.properties.zone_status.getD "" = "Evacuation Warning")
    (hlt : minBoundaryDistance lat lon poly < st.closest_warning_distance) :
    (processFeature lat lon st f).closest_warning_zone = some f.properties ∧
    (processFeature lat lon st f).closest_warning_distance =
      minBoundaryDistance lat lon poly := by
  unfold processFeature
  rw [hs]
  simp only [hc, Bool.false_eq_true, if_false]
  split_ifs with h1 h2 h3
  · exact ⟨rfl, rfl⟩
  · exact absurd ⟨hw, hlt⟩ h2
  · exact ⟨rfl, rfl⟩
  · exact absurd ⟨hw, hlt⟩ h3

/-! ### Helper lemmas about the batch loop -/

lemma processAddress_geocode_none {geocoder : String → Option Location}
    {a : String} (features : List Feature) (hg : geocoder a = none) :
    processAddress geocoder features a = notAvailableRow a := by
  unfold processAddress
  rw [hg]

lemma processAddress_geocode_some {geocoder : String → Option Location}
    {a : String} {loc : Location} (features : List Feature) (hg : geocoder a = some loc) :
    processAddress geocoder features a =
      buildRow a (find_evacuation_zones loc.latitude loc.longitude features) := by
  unfold processAddress
  rw [hg]

lemma buildRow_nil {st : ZoneSearchState} (a : String) (hm : st.matching_zones = []) :
    buildRow a st = distanceRow a st.closest_distance := by
  unfold buildRow
  rw [hm]

lemma buildRow_cons {st : ZoneSearchState} {z : Props} {zs : List Props} (a : String)
    (hm : st.matching_zones = z :: zs) : buildRow a st = containedRow a z := by
  unfold buildRow
  rw [hm]

lemma mem_checkZonesResults_cases {geocoder : String → Option Location}
    {features : List Feature} {addresses : List String} {r : Row}
    (h : r ∈ checkZonesResults geocoder features addresses) :
    ∃ a, r = notAvailableRow a ∨ (∃ z, r = containedRow a z) ∨ ∃ d, r = distanceRow a d := by
  obtain ⟨a, _, rfl⟩ := List.mem_map.1 h
  refine ⟨a, ?_⟩
  cases hg : geocoder a with
  | none => exact Or.inl (processAddress_geocode_none features hg)
  | some loc =>
    rw [processAddress_geocode_some features hg]
    cases hm : (find_evacuation_zones loc.latitude loc.longitude features).matching_zones with
    | nil => exact Or.inr (Or.inr ⟨_, buildRow_nil a hm⟩)
    | cons z zs => exact Or.inr (Or.inl ⟨z, buildRow_cons a hm⟩)

lemma processAddress_address (geocoder : String → Option Location)
    (features : List Feature) (a : String) :
    (processAddress geocoder features a).address = a := by
  cases hg : geocoder a with
  | none =>
    rw [processAddress_geocode_none features hg]
    rfl
  | some loc =>
    rw [processAddress_geocode_some features hg]
    cases hm : (find_evacuation_zones loc.latitude loc.longitude features).matching_zones with
    | nil =>
      rw [buildRow_nil a hm]
      rfl
    | cons z zs =>
      rw [buildRow_cons a hm]
      rfl

/-! ### Claim theorems -/

lemma sin_sq_half_sub_comm (x y : ℝ) :
    Real.sin ((x - y) / 2) ^ 2 = Real.sin ((y - x) / 2) ^ 2 := by
  rw [show (x - y) / 2 = -((y - x) / 2) by ring, Real.sin_neg]
  ring

/-- C4: the haversine distance (Earth radius 3958.8 miles) is symmetric
in its two coordinate pairs, and the distance from any point to itself
is 0. -/
theorem c4_haversine_symmetric_and_zero :
    (∀ lat1 lon1 lat2 lon2 : ℝ,
        haversine lat1 lon1 lat2 lon2 = haversine lat2 lon2 lat1 lon1) ∧
    ∀ lat lon : ℝ, haversine lat lon lat lon = 0 := by
  constructor
  · intro lat1 lon1 lat2 lon2
    unfold haversine
    dsimp only
    rw [sin_sq_half_sub_comm (radians lat2) (radians lat1),
        sin_sq_half_sub_comm (radians lon2) (radians lon1),
        mul_comm (Real.cos (radians lat1)) (Real.cos (radians lat2))]
  · intro lat lon
    unfold haversine
    norm_num [atan2, Real.sqrt_zero, Real.sqrt_one, Real.arctan_zero]

/-- C3: the classifier scans every feed record in repository order with
no early exit: its matching set is exactly the records whose
(successfully constructed) polygon contains the coordinate, in feed
order — the filter of the feature list, mapped to properties. -/
theorem c3_matching_set_is_ordered_filter (lat lon : ℚ) (features : List Feature) :
    (find_evacuation_zones lat lon features).matching_zones =
      (features.filter (containsTest lat lon)).map Feature.properties :=
  find_matching_eq_filter lat lon features

/-- C1: when the containment set is non-empty, the result row's statuses
derive from the first containing record in repository order: Order is
"Yes" iff that record's zone_status is "Evacuation Order", Warning is
"Yes" iff it is "Evacuation Warning", a record with neither status
yields "No"/"No", and the record's other zone attributes are still
surfaced in the row (with the distance column left empty). -/
theorem c1_first_record_authoritative (address : String) (lat lon : ℚ)
    (features : List Feature) (z : Props) (zs : List Props)
    (hm : (find_evacuation_zones lat lon features).matching_zones = z :: zs) :
    ((buildRow address (find_evacuation_zones lat lon features)).evacuationZone = "Yes" ↔
        z.zone_status = some "Evacuation Order") ∧
    ((buildRow address (find_evacuation_zones lat lon features)).evacuationWarning = "Yes" ↔
        z.zone_status = some "Evacuation Warning") ∧
    (z.zone_status ≠ some "Evacuation Order" → z.zone_status ≠ some "Evacuation Warning" →
      (buildRow address (find_evacuation_zones lat lon features)).evacuationZone = "No" ∧
      (buildRow address (find_evacuation_zones lat lon features)).evacuationWarning = "No") ∧
    (buildRow address (find_evacuation_zones lat lon features)).distance = none ∧
    (buildRow address (find_evacuation_zones lat lon features)).zoneId = z.zone_id ∧
    (buildRow address (find_evacuation_zones lat lon features)).zoneStatus = z.zone_status ∧
    (buildRow address (find_evacuation_zones lat lon features)).zoneStatusReason =
      z.zone_status_reason ∧
    (buildRow address (find_evacuation_zones lat lon features)).northOf = z.north_of ∧
    (buildRow address (find_evacuation_zones lat lon features)).eastOf = z.east_of ∧
    (buildRow address (find_evacuation_zones lat lon features)).southOf = z.south_of ∧
    (buildRow address (find_evacuation_zones lat lon features)).westOf = z.west_of ∧
    (buildRow address (find_evacuation_zones lat lon features)).acreage = z.acreage ∧
    (buildRow address (find_evacuation_zones lat lon features)).estPopulation =
      z.est_population ∧
    (buildRow address (find_evacuation_zones lat lon features)).lastUpdated =
      z.last_updated.bind
        (fun t => if t = 0 then none else some (formatTimestamp (t.fdiv 1000))) := by
  rw [buildRow_cons address hm]
  refine ⟨?_, ?_, ?_, rfl, rfl, rfl, rfl, rfl, rfl, rfl, rfl, rfl, rfl, ?_⟩
  · show (if z.zone_status = some "Evacuation Order" then "Yes" else "No") = "Yes" ↔ _
    split_ifs with h
    · simp [h]
    · simp [h]
  · show (if z.zone_status = some "Evacuation Warning" then "Yes" else "No") = "Yes" ↔ _
    split_ifs with h
    · simp [h]
    · simp [h]
  · intro h1 h2
    constructor
    · show (if z.zone_status = some "Evacuation Order" then "Yes" else "No") = "No"
      rw [if_neg h1]
    · show (if z.zone_status = some "Evacuation Warning" then "Yes" else "No") = "No"
      rw [if_neg h2]
  · show (match z.last_updated with
      | some t => if t = 0 then none else some (formatTimestamp (t.fdiv 1000))
      | none => none) = _
    cases z.last_updated <;> rfl

/-- Witness for C1: a point inside the unit-square order zone yields
Order = "Yes" and surfaces the record's zone id. -/
theorem c1_witness :
    (buildRow "123 Main St" (find_evacuation_zones (1/2) (1/2) [goodFeature])).evacuationZone =
        "Yes" ∧
    (buildRow "123 Main St" (find_evacuation_zones (1/2) (1/2) [goodFeature])).zoneId =
      orderProps.zone_id := by
  have hm : (find_evacuation_zones (1/2) (1/2) [goodFeature]).matching_zones =
      orderProps :: [] := by
    rw [find_matching_eq_filter]
    norm_num [containsTest, goodFeature, shape, unitRing, polyContains, oddCrossings,
      edgeCrosses, List.rotate, List.zip, List.zipWith, List.foldl, List.filter]
  have h := c1_first_record_authoritative "123 Main St" (1/2) (1/2) [goodFeature]
    orderProps [] hm
  exact ⟨h.1.mpr rfl, h.2.2.2.2.1⟩

/-- C2: tie-break determinism of the two nearest-zone trackers. For a
repository of two non-containing candidate zones at exactly equal
minimum boundary distance, the overall nearest tracker and (when both
records carry "Evacuation Warning") the warning-restricted tracker
select the first-seen record; a record is only considered by the
warning tracker when its zone_status is exactly "Evacuation Warning";
and in general an existing minimum is replaced only on a strictly
smaller distance, never on an equal one. -/
theorem c2_tie_break_first_seen (lat lon : ℚ) (f1 f2 : Feature) (p1 p2 : Polygon)
    (hs1 : shape f1.geometry = some p1) (hs2 : shape f2.geometry = some p2)
    (hc1 : polyContains p1 lon lat = false) (hc2 : polyContains p2 lon lat = false)
    (heq : minBoundaryDistance lat lon p1 = minBoundaryDistance lat lon p2) :
    ((find_evacuation_zones lat lon [f1, f2]).closest_zone = some f1.properties ∧
      (find_evacuation_zones lat lon [f1, f2]).closest_distance =
        minBoundaryDistance lat lon p1) ∧
    (f1.properties.zone_status.getD "" = "Evacuation Warning" →
      (find_evacuation_zones lat lon [f1, f2]).closest_warning_zone = some f1.properties) ∧
    (f1.properties.zone_status.getD "" ≠ "Evacuation Warning" →
      f2.properties.zone_status.getD "" = "Evacuation Warning" →
      (find_evacuation_zones lat lon [f1, f2]).closest_warning_zone = some f2.properties) ∧
    (∀ st : ZoneSearchState, ¬ minBoundaryDistance lat lon p2 < st.closest_distance →
      (processFeature lat lon st f2).closest_zone = st.closest_zone ∧
      (processFeature lat lon st f2).closest_distance = st.closest_distance) ∧
    (∀ st : ZoneSearchState, f2.properties.zone_status.getD "" ≠ "Evacuation Warning" →
      (processFeature lat lon st f2).closest_warning_zone = st.closest_warning_zone ∧
      (processFeature lat lon st f2).closest_warning_distance =
        st.closest_warning_distance) := by
  have hfind : find_evacuation_zones lat lon [f1, f2] =
      processFeature lat lon (processFeature lat lon initState f1) f2 := rfl
  have hd1top : minBoundaryDistance lat lon p1 < ⊤ :=
    minBoundaryDistance_lt_top lat lon p1 (shape_exterior_ne_nil hs1)
  have hd2top : minBoundaryDistance lat lon p2 < ⊤ :=
    minBoundaryDistance_lt_top lat lon p2 (shape_exterior_ne_nil hs2)
  have h1 := step_closest_lt lat lon initState f1 p1 hs1 hc1 hd1top
  have hnlt : ¬ minBoundaryDistance lat lon p2 <
      (processFeature lat lon initState f1).closest_distance := by
    rw [h1.2, ← heq]
    exact lt_irrefl _
  have h2 := step_closest_unchanged lat lon (processFeature lat lon initState f1) f2 p2
    hs2 hc2 hnlt
  refine ⟨⟨?_, ?_⟩, ?_, ?_, ?_, ?_⟩
  · rw [hfind, h2.1, h1.1]
  · rw [hfind, h2.2, h1.2]
  · intro hw1
    have hw := step_warning_lt lat lon initState f1 p1 hs1 hc1 hw1 hd1top
    have hnltw : ¬ minBoundaryDistance lat lon p2 <
        (processFeature lat lon initState f1).closest_warning_distance := by
      rw [hw.2, ← heq]
      exact lt_irrefl _
    rw [hfind, (step_warning_unchanged_of_not_lt lat lon _ f2 p2 hs2 hc2 hnltw).1, hw.1]
  · intro hw1 hw2
    have hw := step_warning_unchanged_of_status lat lon initState f1 p1 hs1 hc1 hw1
    have hltw2 : minBoundaryDistance lat lon p2 <
        (processFeature lat lon initState f1).closest_warning_distance := by
      rw [hw.2]
      exact hd2top
    rw [hfind, (step_warning_lt lat lon _ f2 p2 hs2 hc2 hw2 hltw2).1]
  · intro st hn
    exact step_closest_unchanged lat lon st f2 p2 hs2 hc2 hn
  · intro st hw
    exact step_warning_unchanged_of_status lat lon st f2 p2 hs2 hc2 hw

/-- Witness for C2: two warning zones with identical far-away geometry —
both trackers select the first-seen record. -/
theorem c2_witness :
    (find_evacuation_zones 0 0 [warnF1, warnF2]).closest_zone = some warnProps1 ∧
    (find_evacuation_zones 0 0 [warnF1, warnF2]).closest_warning_zone = some warnProps1 := by
  have h := c2_tie_break_first_seen 0 0 warnF1 warnF2 farPoly farPoly
    (by norm_num [warnF1, shape, farRing, farPoly])
    (by norm_num [warnF2, shape, farRing, farPoly])
    (by norm_num [farPoly, farRing, polyContains, oddCrossings, edgeCrosses,
      List.rotate, List.zip, List.zipWith, List.foldl])
    (by norm_num [farPoly, farRing, polyContains, oddCrossings, edgeCrosses,
      List.rotate, List.zip, List.zipWith, List.foldl])
    rfl
  exact ⟨h.1.1, h.2.1 rfl⟩

/-- C5: every result row the batch produces is in exactly one of the
three mutually exclusive states: contained (distance column empty,
statuses genuine Yes/No), distance-only (distance populated, statuses
"No", zone attributes null), or geocoding-failed (statuses
"Not Available", distance "N/A", zone attributes null). -/
theorem c5_states_mutually_exclusive (geocoder : String → Option Location)
    (features : List Feature) (addresses : List String) (r : Row)
    (hr : r ∈ checkZonesResults geocoder features addresses) :
    (containedState r ∧ ¬ distanceOnlyState r ∧ ¬ geocodeFailedState r) ∨
    (distanceOnlyState r ∧ ¬ containedState r ∧ ¬ geocodeFailedState r) ∨
    (geocodeFailedState r ∧ ¬ containedState r ∧ ¬ distanceOnlyState r) := by
  obtain ⟨a, h⟩ := mem_checkZonesResults_cases hr
  rcases h with rfl | ⟨z, rfl⟩ | ⟨d, rfl⟩
  · refine Or.inr (Or.inr ⟨⟨rfl, rfl, rfl, rfl, rfl, rfl, rfl, rfl, rfl, rfl, rfl, rfl,
      rfl⟩, ?_, ?_⟩)
    · rintro ⟨h1, _⟩
      simp [notAvailableRow] at h1
    · rintro ⟨_, h2, _⟩
      simp [notAvailableRow] at h2
  · refine Or.inl ⟨⟨rfl, ?_⟩, ?_, ?_⟩
    · simp only [containedRow]
      split_ifs <;> simp
    · rintro ⟨⟨s, hs⟩, _⟩
      simp [containedRow] at hs
    · rintro ⟨_, _, h3, _⟩
      simp [containedRow] at h3
  · refine Or.inr (Or.inl ⟨⟨⟨formatF2 d, rfl⟩, rfl, rfl, rfl, rfl, rfl, rfl, rfl, rfl,
      rfl, rfl, rfl, rfl⟩, ?_, ?_⟩)
    · rintro ⟨h1, _⟩
      simp [distanceRow] at h1
    · rintro ⟨h1, _⟩
      simp [distanceRow] at h1

lemma mem_notAvailable_single : notAvailableRow "a" ∈ checkZonesResults geoNone [] ["a"] := by
  rw [show checkZonesResults geoNone [] ["a"] = [notAvailableRow "a"] from rfl]
  exact List.mem_singleton.2 rfl

/-- Witness for C5: the failed-geocode row of a one-address batch is in
the geocoding-failed state and in neither of the other two. -/
theorem c5_witness :
    (containedState (notAvailableRow "a") ∧ ¬ distanceOnlyState (notAvailableRow "a") ∧
      ¬ geocodeFailedState (notAvailableRow "a")) ∨
    (distanceOnlyState (notAvailableRow "a") ∧ ¬ containedState (notAvailableRow "a") ∧
      ¬ geocodeFailedState (notAvailableRow "a")) ∨
    (geocodeFailedState (notAvailableRow "a") ∧ ¬ containedState (notAvailableRow "a") ∧
      ¬ distanceOnlyState (notAvailableRow "a")) :=
  c5_states_mutually_exclusive geoNone [] ["a"] (notAvailableRow "a") mem_notAvailable_single

/-- C6: a zone record whose geometry fails to construct is skipped
without affecting the query: the classifier result over the feed with
the malformed record equals the result without it, and any other
record of the same feed whose valid polygon contains the point is still
recorded in the matching set. -/
theorem c6_malformed_geometry_isolated (lat lon : ℚ) (f : Feature) (rest : List Feature)
    (hbad : shape f.geometry = none) :
    find_evacuation_zones lat lon (f :: rest) = find_evacuation_zones lat lon rest ∧
    ∀ g poly, g ∈ f :: rest → shape g.geometry = some poly →
      polyContains poly lon lat = true →
      g.properties ∈ (find_evacuation_zones lat lon (f :: rest)).matching_zones := by
  constructor
  · unfold find_evacuation_zones
    rw [List.foldl_cons, processFeature_shape_none lat lon initState f hbad]
  · intro g poly hg hs hc
    rw [find_matching_eq_filter]
    refine List.mem_map.2 ⟨g, List.mem_filter.2 ⟨hg, ?_⟩, rfl⟩
    unfold containsTest
    rw [hs]
    exact hc

/-- Witness for C6: a feed holding a degenerate 2-vertex ring followed
by a valid containing square still classifies the point as contained,
and the malformed record changes nothing. -/
theorem c6_witness :
    find_evacuation_zones (1/2) (1/2) [badFeature, goodFeature] =
      find_evacuation_zones (1/2) (1/2) [goodFeature] ∧
    orderProps ∈ (find_evacuation_zones (1/2) (1/2) [badFeature, goodFeature]).matching_zones := by
  have h := c6_malformed_geometry_isolated (1/2) (1/2) badFeature [goodFeature]
    (by norm_num [badFeature, shape, badRing])
  refine ⟨h.1, ?_⟩
  exact h.2 goodFeature unitPoly (by simp)
    (by norm_num [goodFeature, shape, unitRing, unitPoly])
    (by norm_num [unitPoly, unitRing, polyContains, oddCrossings, edgeCrosses,
      List.rotate, List.zip, List.zipWith, List.foldl])

/-- C10: no result row ever has both the Order and the Warning column
equal to "Yes": both are derived from the single zone_status string of
the same authoritative record, compared against two distinct
constants. -/
theorem c10_order_warning_never_both_yes (geocoder : String → Option Location)
    (features : List Feature) (addresses : List String) (r : Row)
    (hr : r ∈ checkZonesResults geocoder features addresses) :
    ¬ (r.evacuationZone = "Yes" ∧ r.evacuationWarning = "Yes") := by
  obtain ⟨a, h⟩ := mem_checkZonesResults_cases hr
  rcases h with rfl | ⟨z, rfl⟩ | ⟨d, rfl⟩
  · rintro ⟨h1, _⟩
    simp [notAvailableRow] at h1
  · rintro ⟨h1, h2⟩
    simp only [containedRow] at h1 h2
    by_cases ho : z.zone_status = some "Evacuation Order"
    · by_cases hw : z.zone_status = some "Evacuation Warning"
      · rw [ho] at hw
        simp at hw
      · rw [if_neg hw] at h2
        simp at h2
    · rw [if_neg ho] at h1
      simp at h1
  · rintro ⟨h1, _⟩
    simp [distanceRow] at h1

/-- Witness for C10: the failed-geocode row of a one-address batch does
not have both columns "Yes". -/
theorem c10_witness :
    ¬ ((notAvailableRow "a").evacuationZone = "Yes" ∧
       (notAvailableRow "a").evacuationWarning = "Yes") :=
  c10_order_warning_never_both_yes geoNone [] ["a"] (notAvailableRow "a")
    mem_notAvailable_single

/-- C7: the batch never aborts on a geocoding failure: it yields
exactly one row per processed address (min of the input length and the
10-address slice), in input order; the row at index i belongs to the
i-th address, and when the geocoder fails on that address the row is
the all-"Not Available" row for it. -/
theorem c7_geocode_failure_isolated (geocoder : String → Option Location)
    (features : List Feature) (addresses : List String) :
    (checkZonesResults geocoder features addresses).length = min 10 addresses.length ∧
    ∀ i : ℕ, i < addresses.length → i < 10 →
      ∃ a : String, addresses[i]? = some a ∧
        (checkZonesResults geocoder features addresses)[i]? =
          some (processAddress geocoder features a) ∧
        (geocoder a = none →
          (checkZonesResults geocoder features addresses)[i]? =
            some (notAvailableRow a)) ∧
        ∀ r : Row, (checkZonesResults geocoder features addresses)[i]? = some r →
          r.address = a := by
  constructor
  · simp [checkZonesResults]
  · intro i hi hi10
    have hidx : (checkZonesResults geocoder features addresses)[i]? =
        (addresses[i]?).map (processAddress geocoder features) := by
      unfold checkZonesResults
      rw [List.getElem?_map, List.getElem?_take, if_pos hi10]
    refine ⟨addresses[i], List.getElem?_eq_getElem hi, ?_, ?_, ?_⟩
    · rw [hidx, List.getElem?_eq_getElem hi]
      rfl
    · intro hg
      rw [hidx, List.getElem?_eq_getElem hi]
      simp only [Option.map_some']
      rw [processAddress_geocode_none features hg]
    · intro r hr
      rw [hidx, List.getElem?_eq_getElem hi] at hr
      simp only [Option.map_some'] at hr
      have h2 : processAddress geocoder features addresses[i] = r := Option.some.inj hr
      rw [← h2, processAddress_address]

/-- Witness for C7: a two-address batch against an always-failing
geocoder has two rows and its second row is the "Not Available" row for
the second address. -/
theorem c7_witness :
    (checkZonesResults geoNone [] ["x", "y"]).length = min 10 2 ∧
    (checkZonesResults geoNone [] ["x", "y"])[1]? = some (notAvailableRow "y") := by
  have h := c7_geocode_failure_isolated geoNone [] ["x", "y"]
  obtain ⟨a, ha, _, hna, _⟩ := h.2 1 (by simp) (by simp)
  have ha2 : a = "y" := by simpa using ha.symm
  subst ha2
  exact ⟨h.1, hna rfl⟩

/-- C8 counterexample: with an empty zone repository and a successful
geocode, the distance column is the formatted string "inf" (Python
formats float('inf') with .2f as "inf"), not "NotApplicable" as the
claim states. -/
theorem c8_counterexample :
    (processAddress geoLA [] "123 Main St").distance = some "inf" ∧
    (processAddress geoLA [] "123 Main St").distance ≠ some "NotApplicable" := by
  have hd : (processAddress geoLA [] "123 Main St").distance = some (formatF2 ⊤) := rfl
  rw [hd]
  constructor
  · simp [formatF2]
  · simp [formatF2]

/-- C8 (amended): with an empty repository — or one in which no record's
geometry constructs — and a successful geocode, closest_distance stays
float('inf') and the distance column reads "inf", with statuses "No"
and null zone attributes; it is not the string "NotApplicable". -/
theorem c8_zero_usable_records (geocoder : String → Option Location)
    (features : List Feature) (address : String) (loc : Location)
    (hg : geocoder address = some loc)
    (hskip : ∀ f ∈ features, shape f.geometry = none) :
    (processAddress geocoder features address).distance = some "inf" ∧
    (processAddress geocoder features address).distance ≠ some "NotApplicable" ∧
    (processAddress geocoder features address).evacuationZone = "No" ∧
    (processAddress geocoder features address).evacuationWarning = "No" ∧
    (processAddress geocoder features address).zoneId = none := by
  have hfind := find_skip_all loc.latitude loc.longitude features hskip
  have hpa : processAddress geocoder features address = distanceRow address ⊤ := by
    rw [processAddress_geocode_some features hg, hfind]
    rfl
  rw [hpa]
  have hinf : (distanceRow address (⊤ : EReal)).distance = some "inf" := by
    show some (formatF2 ⊤) = some "inf"
    simp [formatF2]
  refine ⟨hinf, ?_, rfl, rfl, rfl⟩
  rw [hinf]
  simp

/-- Witness for C8 (amended): the empty feed with the Los Angeles
geocoder. -/
theorem c8_witness :
    (processAddress geoLA [] "456 Oak Ave").distance = some "inf" ∧
    (processAddress geoLA [] "456 Oak Ave").distance ≠ some "NotApplicable" ∧
    (processAddress geoLA [] "456 Oak Ave").evacuationZone = "No" ∧
    (processAddress geoLA [] "456 Oak Ave").evacuationWarning = "No" ∧
    (processAddress geoLA [] "456 Oak Ave").zoneId = none :=
  c8_zero_usable_records geoLA [] "456 Oak Ave" laLocation rfl (by simp)

/-- C9 counterexample: with 11 addresses the Check Zones handler shows
the warning and does not run the batch at all — no result rows are
produced, rather than the first 10 addresses producing rows. -/
theorem c9_counterexample : checkZones geoNone [] addrs11 = none := by
  unfold checkZones
  rw [if_neg (by simp [addrs11]), if_pos (by simp [addrs11])]

/-- C9 (amended): whenever more than 10 addresses are submitted, the
handler rejects the whole batch with a warning: it produces no result
rows at all (the addresses[:10] slice inside the loop is unreachable
for oversized input). -/
theorem c9_over_10_rejected (geocoder : String → Option Location)
    (features : List Feature) (addresses : List String)
    (h : 10 < addresses.length) :
    checkZones geocoder features addresses = none := by
  unfold checkZones
  by_cases h1 : addresses = [] ∨ addresses = [""]
  · rw [if_pos h1]
  · rw [if_neg h1, if_pos h]

/-- Witness for C9 (amended): twelve addresses are rejected outright. -/
theorem c9_witness : checkZones geoLA [] addrs12 = none :=
  c9_over_10_rejected geoLA [] addrs12 (by simp [addrs12])

end Wildfires
